import Mathlib

/-!
Verification development for the pixel-grid-snap example
(source file pixel_grid_snap.rs).

The program renders a 512x256 low-resolution scene to an offscreen
canvas and scales it to the window by a whole-number factor.  The
shallow embedding below models:

  - the resize handler fit_canvas: for each pending WindowResized
    event it computes h_scale = width / RES_WIDTH and
    v_scale = height / RES_HEIGHT and assigns
    projection.scale = 1.0 / h_scale.min(v_scale).round()
    on the orthographic projection of the outer camera
    (Rust f32::round rounds to the nearest integer, ties away
    from zero);
  - the startup systems setup_numbers (a 50x50 grid of digit labels),
    setup_bins (five bins, each spawning five entities) and
    setup_camera (canvas image, in-game camera, outer camera).

Floating-point arithmetic is modelled by exact rationals.  On every
value these theorems touch, the f32 computation of the source is
exact (divisions by the powers of two 512 and 256, multiples of 80
by the sample percentages, reciprocals of small integers rounded to
the printed constants), so the rational model agrees with the code
on those inputs.  The one f32 behaviour that has no rational value,
1.0 / 0.0 = +infinity, is represented by a dedicated constructor.
-/

namespace PixelGridSnap

/-- In-game resolution width (constant RES_WIDTH in the source). -/
def RES_WIDTH : ℕ := 512

/-- In-game resolution height (constant RES_HEIGHT in the source). -/
def RES_HEIGHT : ℕ := 256

/-- Spacing between numbers (constant NUMBER_SPACING in the source). -/
def NUMBER_SPACING : ℚ := 20

/-- Rust f32::round: round to the nearest integer, ties away from zero. -/
def rustRound (x : ℚ) : ℤ :=
  if 0 ≤ x then ⌊x + 1/2⌋ else ⌈x - 1/2⌉

/-- A window-resize event: the new window width and height in pixels
(f32 fields in the source, modelled as rationals). -/
structure WindowResized where
  width : ℚ
  height : ℚ
deriving DecidableEq

/-- An f32 value that is either finite or positive infinity.  Infinity is
what f32 division 1.0 / 0.0 yields; no claim distinguishes its sign. -/
inductive F32 where
  | fin (q : ℚ)
  | inf
deriving DecidableEq

/-- Camera projection: the outer camera of the program carries an
orthographic projection (Camera2d default); the handler early-returns on
any other variant. -/
inductive Projection where
  | orthographic (scale : F32)
  | perspective
deriving DecidableEq

/-- The whole-number divisor computed by one iteration of the event loop
in fit_canvas: h_scale.min(v_scale).round() with
h_scale = width / RES_WIDTH and v_scale = height / RES_HEIGHT. -/
def fitDivisor (e : WindowResized) : ℤ :=
  let h_scale := e.width / (RES_WIDTH : ℚ)
  let v_scale := e.height / (RES_HEIGHT : ℚ)
  rustRound (min h_scale v_scale)

/-- The scale value assigned by one iteration of the event loop:
1.0 / divisor, which is infinite when the divisor is zero. -/
def fitScale (e : WindowResized) : F32 :=
  if fitDivisor e = 0 then .inf else .fin (1 / (fitDivisor e : ℚ))

/-- The fit_canvas system: reads the pending resize events in order and,
when the outer projection is orthographic, assigns the scale computed
from each event in turn (so the last event wins); on any other
projection variant it returns without touching anything. -/
def fit_canvas (events : List WindowResized) (p : Projection) : Projection :=
  match p with
  | .perspective => .perspective
  | .orthographic scale => .orthographic (events.foldl (fun _ e => fitScale e) scale)

/-- Helper: a rational at least one half rounds (ties away from zero) to a
positive integer. -/
theorem rustRound_ge_one {x : ℚ} (hx : 1/2 ≤ x) : 1 ≤ rustRound x := by
  have h0 : 0 ≤ x := le_trans (by norm_num) hx
  simp only [rustRound, if_pos h0]
  exact Int.le_floor.mpr (by push_cast; linarith)

/-- Helper: the divisor is at least 1 whenever the window is at least half
the canvas on both axes. -/
theorem fitDivisor_pos {W H : ℚ} (hW : 256 ≤ W) (hH : 128 ≤ H) :
    1 ≤ fitDivisor ⟨W, H⟩ := by
  apply rustRound_ge_one
  have hw : (RES_WIDTH : ℚ) = 512 := by norm_num [RES_WIDTH]
  have hh : (RES_HEIGHT : ℚ) = 256 := by norm_num [RES_HEIGHT]
  refine le_min ?_ ?_
  · rw [hw, le_div_iff₀ (by norm_num)]; linarith
  · rw [hh, le_div_iff₀ (by norm_num)]; linarith

/-- Helper: with a nonzero divisor the assigned scale is the finite
reciprocal of the divisor. -/
theorem fitScale_of_pos {e : WindowResized} (h : 1 ≤ fitDivisor e) :
    fitScale e = .fin (1 / (fitDivisor e : ℚ)) := by
  rw [fitScale, if_neg (by omega)]

/-- An RGBA colour (Color::srgba in the source). -/
structure Color where
  r : ℚ
  g : ℚ
  b : ℚ
  a : ℚ
deriving DecidableEq

/-- The visual component bundle of a spawned entity: either a Sprite with a
custom size, or a Text2d with a font size and an optional TextColor. -/
inductive Visual where
  | sprite (color : Color) (width : ℚ) (height : ℚ)
  | text2d (s : String) (fontSize : ℚ) (color : Option Color)
deriving DecidableEq

/-- One entity spawned by setup_numbers: the Number component, the
translation of its Transform, the displayed text and the font size. -/
structure NumberEntity where
  number : ℕ
  x : ℚ
  y : ℚ
  z : ℚ
  text : String
  fontSize : ℚ
deriving DecidableEq

/-- The entity the inner loop body of setup_numbers spawns for row j and
column i: Number(i) at
(-(RES_WIDTH/2) + i * NUMBER_SPACING, -(RES_HEIGHT/2) + j * NUMBER_SPACING, 0)
displaying (i % 10).to_string() at font size 12. -/
def numberAt (j i : ℕ) : NumberEntity :=
  { number := i
    x := -((RES_WIDTH : ℚ) / 2) + (i : ℚ) * NUMBER_SPACING
    y := -((RES_HEIGHT : ℚ) / 2) + (j : ℚ) * NUMBER_SPACING
    z := 0
    text := toString (i % 10)
    fontSize := 12 }

/-- The setup_numbers startup system: for j in 0..50, for i in 0..50,
spawn one number entity. -/
def setup_numbers : List NumberEntity :=
  (List.range 50).flatMap (fun j => (List.range 50).map (fun i => numberAt j i))

/-- One entity spawned by setup_bins: whether it carries the Bin marker
component, its visual bundle, and the translation of its Transform.  All
of them are on PIXEL_PERFECT_LAYERS. -/
structure BinEntity where
  hasBinTag : Bool
  visual : Visual
  x : ℚ
  y : ℚ
  z : ℚ
deriving DecidableEq

/-- Local constant bin_width of setup_bins. -/
def bin_width : ℚ := 80

/-- Local constant bin_height of setup_bins. -/
def bin_height : ℚ := 40

/-- Local constant bin_count of setup_bins. -/
def bin_count : ℕ := 5

/-- Local constant bin_spacing of setup_bins. -/
def bin_spacing : ℚ := 10

/-- Local constant bar_height of setup_bins. -/
def bar_height : ℚ := 20

/-- Local constant bar_spacing of setup_bins. -/
def bar_spacing : ℚ := 5

/-- The sample percentages array of setup_bins. -/
def percentages : List ℚ := [0.75, 0.45, 0.90, 0.30, 0.60]

/-- Zero-padded two-digit rendering, the Rust format string "{:02}". -/
def pad2 (n : ℕ) : String :=
  if n < 10 then "0" ++ toString n else toString n

/-- The five entities the loop body of setup_bins spawns for bin index i:
the main bin sprite (with the Bin marker), the bin number label, the bar
background sprite, the bar fill sprite, and the percentage text.  The
loop indexes the percentages array inside its bounds, so the getD
default is never read; the Rust cast (percentages[i] * 100.0) as i32
truncates toward zero, which on these nonnegative values is the floor. -/
def binEntities (i : ℕ) : List BinEntity :=
  let x_pos := -((RES_WIDTH : ℚ) / 2) + 60 + (i : ℚ) * (bin_width + bin_spacing)
  let y_pos := -((RES_HEIGHT : ℚ) / 2) + bin_height / 2 + 40
  let p := percentages.getD i 0
  let fill_width := bin_width * p
  [ { hasBinTag := true
      visual := .sprite ⟨0, 0.7, 0.8, 0.9⟩ bin_width bin_height
      x := x_pos, y := y_pos, z := 1 },
    { hasBinTag := false
      visual := .text2d (pad2 (i + 1)) 14 (some ⟨1, 1, 1, 1⟩)
      x := x_pos, y := y_pos, z := 1.3 },
    { hasBinTag := false
      visual := .sprite ⟨0, 0.2, 0.25, 0.8⟩ bin_width bar_height
      x := x_pos, y := y_pos - bin_height / 2 - bar_spacing - bar_height / 2, z := 1 },
    { hasBinTag := false
      visual := .sprite ⟨0, 0.9, 1, 0.9⟩ fill_width bar_height
      x := x_pos - (bin_width - fill_width) / 2
      y := y_pos - bin_height / 2 - bar_spacing - bar_height / 2, z := 1.1 },
    { hasBinTag := false
      visual := .text2d (toString ⌊p * 100⌋ ++ "%") 10 (some ⟨1, 1, 1, 1⟩)
      x := x_pos, y := y_pos - bin_height / 2 - bar_spacing - bar_height / 2, z := 1.2 } ]

/-- The setup_bins startup system: for i in 0..bin_count, spawn the five
entities of bin i. -/
def setup_bins : List BinEntity :=
  (List.range bin_count).flatMap binEntities

/-- Width of the sprite visual of an entity, if it has one. -/
def BinEntity.spriteWidth (e : BinEntity) : Option ℚ :=
  match e.visual with
  | .sprite _ w _ => some w
  | .text2d _ _ _ => none

/-- The offscreen canvas image created by setup_camera: a RES_WIDTH by
RES_HEIGHT texture. -/
structure CanvasImage where
  width : ℕ
  height : ℕ
deriving DecidableEq

/-- The in-game camera created by setup_camera: render order -1, target
set to the canvas image. -/
structure InGameCameraEntity where
  order : ℤ
  renderToCanvas : Bool
deriving DecidableEq

/-- The mutable world the claims speak about: the entities created by the
three startup systems, with the outer camera represented by its
projection (the only part of it the resize handler touches). -/
structure World where
  numbers : List NumberEntity
  bins : List BinEntity
  canvas : CanvasImage
  inGameCamera : InGameCameraEntity
  outerProjection : Projection
deriving DecidableEq

/-- The world right after Startup: setup_numbers and setup_bins have run,
setup_camera has created the canvas, the in-game camera and the outer
camera, whose Camera2d default projection is orthographic with scale 1. -/
def startup_world : World :=
  { numbers := setup_numbers
    bins := setup_bins
    canvas := { width := RES_WIDTH, height := RES_HEIGHT }
    inGameCamera := { order := -1, renderToCanvas := true }
    outerProjection := .orthographic (.fin 1) }

/-- One FixedUpdate run of the fit_canvas system on the world: its query
borrows only the projection of the outer camera, so that is the only
field it can write. -/
def fit_canvas_world (events : List WindowResized) (w : World) : World :=
  { w with outerProjection := fit_canvas events w.outerProjection }

/-- Helper: evaluate the divisor of a concrete event, given the value m of
the minimum of the two axis scales and the bracketing of m + 1/2. -/
theorem fitDivisor_eq {e : WindowResized} (m : ℚ) {n : ℤ}
    (hm : min (e.width / (RES_WIDTH : ℚ)) (e.height / (RES_HEIGHT : ℚ)) = m)
    (h0 : 0 ≤ m) (h1 : (n : ℚ) ≤ m + 1/2) (h2 : m + 1/2 < (n : ℚ) + 1) :
    fitDivisor e = n := by
  show rustRound (min (e.width / (RES_WIDTH : ℚ)) (e.height / (RES_HEIGHT : ℚ))) = n
  rw [hm, rustRound, if_pos h0]
  exact Int.floor_eq_iff.mpr ⟨h1, h2⟩

/-- Helper: the scale assigned for an event with a known nonzero divisor. -/
theorem fitScale_eq {e : WindowResized} {n : ℤ} (hn : fitDivisor e = n) (h : n ≠ 0) :
    fitScale e = .fin (1 / (n : ℚ)) := by
  rw [fitScale, hn, if_neg h]

/-- Helper: folding an assignment that ignores the accumulator keeps only
the value computed from the last list element. -/
theorem foldl_assign_last {α β : Type _} (f : α → β) (l : List α) (h : l ≠ []) (b : β) :
    l.foldl (fun _ a => f a) b = f (l.getLast h) := by
  induction l generalizing b with
  | nil => exact absurd rfl h
  | cons a t ih =>
    cases t with
    | nil => rfl
    | cons c t2 =>
      rw [List.foldl_cons]
      exact ih (List.cons_ne_nil c t2) (f a)

/-- Helper: setup_numbers spawns 2500 entities. -/
theorem setup_numbers_length : setup_numbers.length = 2500 := by
  rw [setup_numbers, List.flatMap_def, List.length_flatten]
  simp only [List.map_map, Function.comp_def, List.length_map, List.length_range,
    List.map_const', List.sum_replicate, smul_eq_mul]

/-- C1, counterexample: at the resize event (800, 400) the code sets the
zoom to 1/2 = 1/round(1.5625), while 1/floor(min(W/512, H/256)) would be
1/1 = 1, so the claimed floor formula does not match the code. -/
theorem C1_counterexample :
    fitScale ⟨800, 400⟩ ≠
      F32.fin (1 / (⌊min ((800 : ℚ) / (RES_WIDTH : ℚ)) ((400 : ℚ) / (RES_HEIGHT : ℚ))⌋ : ℚ)) ∧
    fitScale ⟨800, 400⟩ = F32.fin (1/2) ∧
    ⌊min ((800 : ℚ) / (RES_WIDTH : ℚ)) ((400 : ℚ) / (RES_HEIGHT : ℚ))⌋ = 1 := by
  have hmin : min ((800 : ℚ) / (RES_WIDTH : ℚ)) ((400 : ℚ) / (RES_HEIGHT : ℚ)) = 25/16 := by
    norm_num [RES_WIDTH, RES_HEIGHT]
  have hfl : ⌊(25/16 : ℚ)⌋ = 1 := Int.floor_eq_iff.mpr (by norm_num)
  have hd : fitDivisor ⟨800, 400⟩ = 2 :=
    fitDivisor_eq (25/16) hmin (by norm_num) (by norm_num) (by norm_num)
  have hs : fitScale ⟨800, 400⟩ = .fin (1/2) := by
    rw [fitScale_eq hd (by norm_num)]; norm_num
  refine ⟨?_, hs, by rw [hmin, hfl]⟩
  rw [hs, hmin, hfl]
  norm_num

/-- C1, amended: for every resize event with width W at least 512 and
height H at least 256, fit_canvas sets the outer orthographic scale to
1 / round(min(W/512, H/256)), where round is to the nearest whole number
with ties away from zero (the Rust f32::round the code calls), and this
value is finite. -/
theorem C1_zoom_round (W H : ℚ) (hW : 512 ≤ W) (hH : 256 ≤ H) :
    fitScale ⟨W, H⟩ =
      F32.fin (1 / (rustRound (min (W / (RES_WIDTH : ℚ)) (H / (RES_HEIGHT : ℚ))) : ℚ)) := by
  have h1 : 1 ≤ fitDivisor ⟨W, H⟩ := fitDivisor_pos (by linarith) (by linarith)
  exact fitScale_of_pos h1

/-- C1, witness: the amended statement instantiated at the event
(1024, 512). -/
theorem C1_witness :
    (512 : ℚ) ≤ 1024 ∧ (256 : ℚ) ≤ 512 ∧
    fitScale ⟨1024, 512⟩ =
      F32.fin (1 / (rustRound (min ((1024 : ℚ) / (RES_WIDTH : ℚ))
        ((512 : ℚ) / (RES_HEIGHT : ℚ))) : ℚ)) :=
  ⟨by norm_num, by norm_num, C1_zoom_round 1024 512 (by norm_num) (by norm_num)⟩

/-- C2, counterexample: at the resize event (800, 400) the whole-number
divisor is 2, which exceeds min(W/512, H/256) = 1.5625, so the conversion
rounded up rather than down and the scaled canvas overflows the window. -/
theorem C2_counterexample :
    fitDivisor ⟨800, 400⟩ = 2 ∧
    ¬ ((fitDivisor ⟨800, 400⟩ : ℚ) ≤
        min ((800 : ℚ) / (RES_WIDTH : ℚ)) ((400 : ℚ) / (RES_HEIGHT : ℚ))) := by
  have hmin : min ((800 : ℚ) / (RES_WIDTH : ℚ)) ((400 : ℚ) / (RES_HEIGHT : ℚ)) = 25/16 := by
    norm_num [RES_WIDTH, RES_HEIGHT]
  have hd : fitDivisor ⟨800, 400⟩ = 2 :=
    fitDivisor_eq (25/16) hmin (by norm_num) (by norm_num) (by norm_num)
  refine ⟨hd, ?_⟩
  rw [hd, hmin]
  norm_num

/-- C2, amended: for every resize event the whole-number divisor satisfies
s ≤ min(W/512, H/256) + 1/2: the conversion rounds to the NEAREST whole
number (ties away from zero), so it can round up by as much as one half,
and the scaled canvas can overflow the window by up to half a scale
step. -/
theorem C2_divisor_bound (e : WindowResized) :
    (fitDivisor e : ℚ) ≤
      min (e.width / (RES_WIDTH : ℚ)) (e.height / (RES_HEIGHT : ℚ)) + 1/2 := by
  have he : fitDivisor e =
      rustRound (min (e.width / (RES_WIDTH : ℚ)) (e.height / (RES_HEIGHT : ℚ))) := rfl
  rw [he]
  simp only [rustRound]
  split_ifs with h0
  · exact_mod_cast Int.floor_le (α := ℚ)
      (min (e.width / (RES_WIDTH : ℚ)) (e.height / (RES_HEIGHT : ℚ)) + 1/2)
  · have := Int.ceil_lt_add_one (α := ℚ)
      (min (e.width / (RES_WIDTH : ℚ)) (e.height / (RES_HEIGHT : ℚ)) - 1/2)
    linarith

/-- C3, counterexample: the resize event (1536, 512) sets the zoom to 1/2,
not to the claimed 1/3: the height axis gives 512/256 = 2 and the minimum
of the two axis scales is 2, not 3. -/
theorem C3_counterexample :
    fitScale ⟨1536, 512⟩ ≠ F32.fin (1/3) ∧ fitScale ⟨1536, 512⟩ = F32.fin (1/2) := by
  have hd : fitDivisor ⟨1536, 512⟩ = 2 :=
    fitDivisor_eq 2 (by norm_num [RES_WIDTH, RES_HEIGHT, min_def]) (by norm_num)
      (by norm_num) (by norm_num)
  have hs : fitScale ⟨1536, 512⟩ = .fin (1/2) := by
    rw [fitScale_eq hd (by norm_num)]; norm_num
  exact ⟨by rw [hs]; norm_num, hs⟩

/-- C3, amended: the resize event (1024, 512) sets the zoom to 1/2 (s = 2);
(1536, 512) sets it to 1/2 as well, because the smaller axis scale is
512/256 = 2 (s = 2, not 3); (600, 300) sets it to 1 (s = 1). -/
theorem C3_concrete_cases :
    fitScale ⟨1024, 512⟩ = F32.fin (1/2) ∧
    fitScale ⟨1536, 512⟩ = F32.fin (1/2) ∧
    fitScale ⟨600, 300⟩ = F32.fin 1 := by
  have h1 : fitDivisor ⟨1024, 512⟩ = 2 :=
    fitDivisor_eq 2 (by norm_num [RES_WIDTH, RES_HEIGHT]) (by norm_num)
      (by norm_num) (by norm_num)
  have h2 : fitDivisor ⟨1536, 512⟩ = 2 :=
    fitDivisor_eq 2 (by norm_num [RES_WIDTH, RES_HEIGHT, min_def]) (by norm_num)
      (by norm_num) (by norm_num)
  have h3 : fitDivisor ⟨600, 300⟩ = 1 :=
    fitDivisor_eq (75/64) (by norm_num [RES_WIDTH, RES_HEIGHT]) (by norm_num)
      (by norm_num) (by norm_num)
  refine ⟨?_, ?_, ?_⟩
  · rw [fitScale_eq h1 (by norm_num)]; norm_num
  · rw [fitScale_eq h2 (by norm_num)]; norm_num
  · rw [fitScale_eq h3 (by norm_num)]; norm_num

/-- C4, counterexample: at the resize event (511, 256) the divisor is not
0 and the zoom is not infinite: 511/512 rounds to the nearest whole
number, which is 1. -/
theorem C4_counterexample :
    fitDivisor ⟨511, 256⟩ ≠ 0 ∧ fitScale ⟨511, 256⟩ ≠ F32.inf := by
  have hd : fitDivisor ⟨511, 256⟩ = 1 :=
    fitDivisor_eq (511/512) (by norm_num [RES_WIDTH, RES_HEIGHT, min_def]) (by norm_num)
      (by norm_num) (by norm_num)
  have hs : fitScale ⟨511, 256⟩ = .fin 1 := by
    rw [fitScale_eq hd (by norm_num)]; norm_num
  exact ⟨by rw [hd]; norm_num, by rw [hs]; exact fun hc => F32.noConfusion hc⟩

/-- C4, amended: processing a resize event of (511, 256) computes the
whole-number divisor s = 1 (511/512 is rounded to the nearest integer,
which rounds it up to 1), so the resulting zoom is the finite value 1,
not an infinite or NaN value; s = 0 would require a window less than half
the canvas size on some axis. -/
theorem C4_boundary :
    fitDivisor ⟨511, 256⟩ = 1 ∧ fitScale ⟨511, 256⟩ = F32.fin 1 := by
  have hd : fitDivisor ⟨511, 256⟩ = 1 :=
    fitDivisor_eq (511/512) (by norm_num [RES_WIDTH, RES_HEIGHT, min_def]) (by norm_num)
      (by norm_num) (by norm_num)
  refine ⟨hd, ?_⟩
  rw [fitScale_eq hd (by norm_num)]
  norm_num

/-- C5: resize handling is idempotent: for every resize event e and every
starting projection, processing the batch [e, e] leaves the projection
equal to processing the batch [e] once. -/
theorem C5_idempotent (e : WindowResized) (p : Projection) :
    fit_canvas [e, e] p = fit_canvas [e] p := by
  cases p <;> rfl

/-- C6: resize handling is last-event-wins: for every non-empty batch of
resize events processed in one run and every starting projection, the
result equals processing the last event of the batch alone. -/
theorem C6_last_event_wins (events : List WindowResized) (h : events ≠ [])
    (p : Projection) :
    fit_canvas events p = fit_canvas [events.getLast h] p := by
  cases p with
  | perspective => rfl
  | orthographic s =>
    show Projection.orthographic (events.foldl (fun _ e => fitScale e) s) =
      Projection.orthographic ([events.getLast h].foldl (fun _ e => fitScale e) s)
    rw [foldl_assign_last fitScale events h s]
    rfl

/-- C6, witness: a two-event batch where the first event alone would give
a different zoom than the last. -/
theorem C6_witness :
    ([⟨300, 300⟩, ⟨1024, 512⟩] : List WindowResized) ≠ [] ∧
    fit_canvas [⟨300, 300⟩, ⟨1024, 512⟩] (.orthographic (.fin 1)) =
      fit_canvas [([⟨300, 300⟩, ⟨1024, 512⟩] : List WindowResized).getLast (by simp)]
        (.orthographic (.fin 1)) :=
  ⟨by simp, C6_last_event_wins _ (by simp) _⟩

/-- C7: for every batch of resize events, running the fit policy on the
startup world changes only the projection of the outer camera (and that
exactly as fit_canvas computes); the numbers, bins, canvas and in-game
camera are all left unchanged. -/
theorem C7_frame_condition (events : List WindowResized) :
    (fit_canvas_world events startup_world).numbers = startup_world.numbers ∧
    (fit_canvas_world events startup_world).bins = startup_world.bins ∧
    (fit_canvas_world events startup_world).canvas = startup_world.canvas ∧
    (fit_canvas_world events startup_world).inGameCamera = startup_world.inGameCamera ∧
    (fit_canvas_world events startup_world).outerProjection =
      fit_canvas events startup_world.outerProjection :=
  ⟨rfl, rfl, rfl, rfl, rfl⟩

/-- C8, counterexample: setup_bins spawns 25 entities, not the claimed 20:
each of the five bins spawns five entities (bin sprite, bin label, bar
background, bar fill, percentage text). -/
theorem C8_counterexample :
    setup_bins.length = 25 ∧ setup_bins.length ≠ 20 :=
  ⟨by decide, by decide⟩

/-- C8, amended: scene initialization creates exactly 2500 numeric-label
entities, one at each grid position (j, i) with j, i < 50, displaying the
digit i % 10 (i the column index), with grid neighbours spaced
NUMBER_SPACING = 20 units apart, and exactly 25 bar-chart entities
(5 bins times 5 sub-elements each). -/
theorem C8_scene_population :
    setup_numbers.length = 2500 ∧
    (∀ j i : ℕ, j < 50 → i < 50 → numberAt j i ∈ setup_numbers) ∧
    (∀ e ∈ setup_numbers, ∃ j, j < 50 ∧ ∃ i, i < 50 ∧ e = numberAt j i) ∧
    (∀ j i : ℕ, (numberAt j i).text = toString (i % 10)) ∧
    (∀ j i : ℕ, (numberAt j (i + 1)).x - (numberAt j i).x = NUMBER_SPACING ∧
      (numberAt (j + 1) i).y - (numberAt j i).y = NUMBER_SPACING) ∧
    setup_bins.length = 25 := by
  refine ⟨setup_numbers_length, ?_, ?_, ?_, ?_, by decide⟩
  · intro j i hj hi
    simp only [setup_numbers, List.mem_flatMap, List.mem_map, List.mem_range]
    exact ⟨j, hj, i, hi, rfl⟩
  · intro e he
    simp only [setup_numbers, List.mem_flatMap, List.mem_map, List.mem_range] at he
    obtain ⟨j, hj, i, hi, rfl⟩ := he
    exact ⟨j, hj, i, hi, rfl⟩
  · intro j i
    rfl
  · intro j i
    constructor <;> (simp only [numberAt, NUMBER_SPACING]; push_cast; ring)

/-- C8, witness: the grid membership clause instantiated at row 7,
column 3. -/
theorem C8_witness : numberAt 7 3 ∈ setup_numbers :=
  C8_scene_population.2.1 7 3 (by norm_num) (by norm_num)

/-- C9, counterexample: the bar-fill sprite of bin 3 (0-based, percentage
0.30) has width 80 * 0.30 = 24, not the claimed 72; it is bin 2 (0-based,
labeled "03", percentage 0.90) whose fill width is 72. -/
theorem C9_counterexample :
    (setup_bins[5 * 3 + 3]?).bind BinEntity.spriteWidth = some 24 ∧
    (setup_bins[5 * 3 + 3]?).bind BinEntity.spriteWidth ≠ some 72 := by
  have h3 : (setup_bins[5 * 3 + 3]?).bind BinEntity.spriteWidth =
      some (bin_width * percentages.getD 3 0) := rfl
  rw [h3]
  norm_num [bin_width, percentages]

/-- C9, amended: for every bin i (0-based, fixed percentages 0.75, 0.45,
0.90, 0.30, 0.60), the bar-fill sprite spawned fourth for that bin has
width equal to bin_width = 80 times the percentage of the bin; in
particular bin 2 (0-based, the bin labeled "03") has fill width
80 * 0.90 = 72 units. -/
theorem C9_fill_width (i : ℕ) (h : i < 5) :
    (setup_bins[5 * i + 3]?).bind BinEntity.spriteWidth =
      some (bin_width * percentages.getD i 0) ∧
    (setup_bins[5 * 2 + 3]?).bind BinEntity.spriteWidth = some 72 := by
  refine ⟨?_, ?_⟩
  · interval_cases i <;> rfl
  · have h2 : (setup_bins[5 * 2 + 3]?).bind BinEntity.spriteWidth =
        some (bin_width * percentages.getD 2 0) := rfl
    rw [h2]
    norm_num [bin_width, percentages]

/-- C9, witness: the proportionality clause instantiated at bin 2. -/
theorem C9_witness :
    2 < 5 ∧
    (setup_bins[5 * 2 + 3]?).bind BinEntity.spriteWidth =
      some (bin_width * percentages.getD 2 0) :=
  ⟨by norm_num, (C9_fill_width 2 (by norm_num)).1⟩

/-- C10: for every resize event with width W at least 256 and height H at
least 128, the whole-number divisor is at least 1 (both axis scales are
at least 1/2, which rounds up to 1), so the division is guarded on this
domain and the resulting zoom is finite and positive. -/
theorem C10_guarded_domain (W H : ℚ) (hW : 256 ≤ W) (hH : 128 ≤ H) :
    1 ≤ fitDivisor ⟨W, H⟩ ∧
    fitScale ⟨W, H⟩ = F32.fin (1 / (fitDivisor ⟨W, H⟩ : ℚ)) ∧
    0 < 1 / (fitDivisor ⟨W, H⟩ : ℚ) := by
  have h1 : 1 ≤ fitDivisor ⟨W, H⟩ := fitDivisor_pos hW hH
  have h2 : (1 : ℚ) ≤ (fitDivisor ⟨W, H⟩ : ℚ) := by exact_mod_cast h1
  exact ⟨h1, fitScale_of_pos h1, one_div_pos.mpr (by linarith)⟩

/-- C10, witness: the guarded-domain statement instantiated at the event
(256, 128), the corner of the enlarged safe domain. -/
theorem C10_witness :
    (256 : ℚ) ≤ 256 ∧ (128 : ℚ) ≤ 128 ∧
    1 ≤ fitDivisor ⟨256, 128⟩ ∧
    fitScale ⟨256, 128⟩ = F32.fin (1 / (fitDivisor ⟨256, 128⟩ : ℚ)) :=
  ⟨by norm_num, by norm_num, (C10_guarded_domain 256 128 (by norm_num) (by norm_num)).1,
    (C10_guarded_domain 256 128 (by norm_num) (by norm_num)).2.1⟩

end PixelGridSnap
